import Mathlib

/-!
Verification of the `unitconv` natural-language unit converter
(`unitconv/__init__.py`) against its specification.

The development shallowly embeds the module: the static tables
(`SUPPORTED_UNITS`, `UNIT_SYMBOLS`, `EXTRA_UNITS_INPUT`, `UNITS_OUTPUT`,
`CONNECTORS`, `NUMBERS_INFO`, `SUGGESTED_SECOND_UNIT`), the `_UnitManager`
construction, the numeric-literal grammar `RE_NUMBER` together with
`parse_number`, the facts lookup `_numbers_info`, and the orchestrator
`convert`.  Python floats are modelled as exact rationals (all numeric
literals and all unit factors are decimal rationals), Python `dict`s as
association lists in insertion order, and a Python `KeyError`/`IndexError`
escaping `convert` as the explicit outcome `ConvResult.crash`.
-/

namespace Unitconv

/-- Dimensionality vector of a quantity-engine (pint) unit: exponents of
the base dimensions length, mass, time and temperature (the only base
dimensions occurring in the catalog). -/
structure Dimensionality where
  length : Int
  mass : Int
  time : Int
  temp : Int
deriving DecidableEq, Repr

/-- A quantity-engine unit handle (pint unit): its dimensionality, the
linear factor to SI base units, and an affine offset (nonzero only for
the temperature units `degC` and `degF`).  A magnitude `m` expressed in
this unit denotes `m * factor + offset` in SI base units. -/
structure PintUnit where
  dim : Dimensionality
  factor : ℚ
  offset : ℚ
deriving DecidableEq, Repr

def dimLength : Dimensionality := ⟨1, 0, 0, 0⟩
def dimMass : Dimensionality := ⟨0, 1, 0, 0⟩
def dimTime : Dimensionality := ⟨0, 0, 1, 0⟩
def dimTemp : Dimensionality := ⟨0, 0, 0, 1⟩

/-- `u ** n` on pint units (only ever applied to multiplicative units in
the source, so the offset of the result is 0). -/
def upow (u : PintUnit) (n : Nat) : PintUnit :=
  ⟨⟨u.dim.length * n, u.dim.mass * n, u.dim.time * n, u.dim.temp * n⟩, u.factor ^ n, 0⟩

/-- A multiplicative unit derived from `u` by the scalar `c` (pint derives
e.g. `quart = gallon / 4` this way). -/
def uscale (c : ℚ) (u : PintUnit) : PintUnit := ⟨u.dim, c * u.factor, u.offset⟩

/- The pint registry units referenced by `SUPPORTED_UNITS` (`_ureg.X`),
with their exact factors to SI base units (values from pint's
`default_en.txt` of the era: international yard and pound, tropical year). -/

def uMeter : PintUnit := ⟨dimLength, 1, 0⟩
def uCentimeter : PintUnit := ⟨dimLength, 1/100, 0⟩
def uKilometer : PintUnit := ⟨dimLength, 1000, 0⟩
def uInch : PintUnit := ⟨dimLength, 254/10000, 0⟩
def uFoot : PintUnit := ⟨dimLength, 3048/10000, 0⟩
def uYard : PintUnit := ⟨dimLength, 9144/10000, 0⟩
def uMile : PintUnit := ⟨dimLength, 1609344/1000, 0⟩
def uAre : PintUnit := uscale 100 (upow uMeter 2)
def uLitre : PintUnit := uscale (1/1000) (upow uMeter 3)
def uGallon : PintUnit := uscale 231 (upow uInch 3)
def uQuart : PintUnit := uscale (1/4) uGallon
def uPint : PintUnit := uscale (1/8) uGallon
def uCup : PintUnit := uscale (1/16) uGallon
def uFloz : PintUnit := uscale (1/128) uGallon
def uTablespoon : PintUnit := uscale (1/256) uGallon
def uTeaspoon : PintUnit := uscale (1/768) uGallon
def uGram : PintUnit := ⟨dimMass, 1/1000, 0⟩
def uKilogram : PintUnit := ⟨dimMass, 1, 0⟩
def uMetricTon : PintUnit := ⟨dimMass, 1000, 0⟩
def uPound : PintUnit := ⟨dimMass, 45359237/100000000, 0⟩
def uOunce : PintUnit := uscale (1/16) uPound
def uShortTon : PintUnit := uscale 2000 uPound
def uSecond : PintUnit := ⟨dimTime, 1, 0⟩
def uMinute : PintUnit := ⟨dimTime, 60, 0⟩
def uHour : PintUnit := ⟨dimTime, 3600, 0⟩
def uDay : PintUnit := ⟨dimTime, 86400, 0⟩
def uWeek : PintUnit := ⟨dimTime, 604800, 0⟩
def uYear : PintUnit := ⟨dimTime, 315569259747/10000, 0⟩
def uMonth : PintUnit := uscale (1/12) uYear
def uDegK : PintUnit := ⟨dimTemp, 1, 0⟩
def uDegC : PintUnit := ⟨dimTemp, 1, 5463/20⟩
def uDegF : PintUnit := ⟨dimTemp, 5/9, 45967/180⟩

/-- `SUPPORTED_UNITS`: the key is the reference name, with its optional
multiplier and its pint unit (source order preserved; a Python `dict`
literal iterates in insertion order). -/
def SUPPORTED_UNITS : List (String × Option ℚ × PintUnit) := [
  ("are", none, uAre),
  ("celsius", none, uDegC),
  ("centimeter", none, uCentimeter),
  ("cubic_centimeter", none, upow uCentimeter 3),
  ("cubic_foot", none, upow uFoot 3),
  ("cubic_inch", none, upow uInch 3),
  ("cubic_kilometer", none, upow uKilometer 3),
  ("cubic_meter", none, upow uMeter 3),
  ("cubic_mile", none, upow uMile 3),
  ("cubic_yard", none, upow uYard 3),
  ("cup", none, uCup),
  ("day", none, uDay),
  ("fahrenheit", none, uDegF),
  ("fluid_ounce", none, uFloz),
  ("foot", none, uFoot),
  ("gallon", none, uGallon),
  ("gram", none, uGram),
  ("hectare", some 100, uAre),
  ("hour", none, uHour),
  ("inch", none, uInch),
  ("kelvin", none, uDegK),
  ("kilogram", none, uKilogram),
  ("kilometer", none, uKilometer),
  ("litre", none, uLitre),
  ("meter", none, uMeter),
  ("metric_ton", none, uMetricTon),
  ("mile", none, uMile),
  ("milligram", some (1/1000), uGram),
  ("millilitre", some (1/1000), uLitre),
  ("minute", none, uMinute),
  ("month", none, uMonth),
  ("ounce", none, uOunce),
  ("pint", none, uPint),
  ("pound", none, uPound),
  ("quart", none, uQuart),
  ("second", none, uSecond),
  ("short_ton", none, uShortTon),
  ("square_centimeter", none, upow uCentimeter 2),
  ("square_foot", none, upow uFoot 2),
  ("square_inch", none, upow uInch 2),
  ("square_kilometer", none, upow uKilometer 2),
  ("square_meter", none, upow uMeter 2),
  ("square_mile", none, upow uMile 2),
  ("square_yard", none, upow uYard 2),
  ("tablespoon", none, uTablespoon),
  ("teaspoon", none, uTeaspoon),
  ("week", none, uWeek),
  ("yard", none, uYard),
  ("year", none, uYear)]

/-- `UNIT_SYMBOLS`: symbol, supported unit name, and whether it is linear
(so area and volume postfix markers are derived for it). -/
def UNIT_SYMBOLS : List (String × String × Bool) := [
  ("c", "celsius", false),
  ("c", "cup", false),
  ("cc", "cubic_centimeter", false),
  ("cm", "centimeter", true),
  ("d", "day", false),
  ("f", "fahrenheit", false),
  ("f", "foot", true),
  ("ft", "foot", true),
  ("g", "gram", false),
  ("h", "hour", false),
  ("in", "inch", true),
  ("k", "kelvin", false),
  ("kg", "kilogram", false),
  ("km", "kilometer", true),
  ("l", "litre", false),
  ("m", "meter", true),
  ("m", "month", false),
  ("mg", "milligram", false),
  ("mi", "mile", true),
  ("ml", "millilitre", false),
  ("s", "second", false),
  ("t", "metric_ton", false),
  ("w", "week", false),
  ("y", "yard", true),
  ("y", "year", false),
  ("°c", "celsius", false),
  ("°f", "fahrenheit", false)]

/-- `EXTRA_UNITS_INPUT`: synonyms, abbreviations and multi-word names. -/
def EXTRA_UNITS_INPUT : List (String × String) := [
  ("ares", "are"),
  ("centimeters", "centimeter"),
  ("cubic centimeter", "cubic_centimeter"),
  ("cubic centimeters", "cubic_centimeter"),
  ("cubic cm", "cubic_centimeter"),
  ("cubic feet", "cubic_foot"),
  ("cubic foot", "cubic_foot"),
  ("cubic ft", "cubic_foot"),
  ("cubic in", "cubic_inch"),
  ("cubic inch", "cubic_inch"),
  ("cubic inches", "cubic_inch"),
  ("cubic kilometer", "cubic_kilometer"),
  ("cubic kilometers", "cubic_kilometer"),
  ("cubic km", "cubic_kilometer"),
  ("cubic m", "cubic_meter"),
  ("cubic meter", "cubic_meter"),
  ("cubic meters", "cubic_meter"),
  ("cubic mi", "cubic_mile"),
  ("cubic mile", "cubic_mile"),
  ("cubic miles", "cubic_mile"),
  ("cubic y", "cubic_yard"),
  ("cubic yard", "cubic_yard"),
  ("cubic yards", "cubic_yard"),
  ("cups", "cup"),
  ("days", "day"),
  ("feet", "foot"),
  ("floz", "fluid_ounce"),
  ("flozs", "fluid_ounce"),
  ("fluid ounce", "fluid_ounce"),
  ("fluid ounces", "fluid_ounce"),
  ("gal", "gallon"),
  ("gallons", "gallon"),
  ("grams", "gram"),
  ("hectares", "hectare"),
  ("hours", "hour"),
  ("inches", "inch"),
  ("kilograms", "kilogram"),
  ("kilometers", "kilometer"),
  ("lb", "pound"),
  ("lbs", "pound"),
  ("liter", "litre"),
  ("liters", "litre"),
  ("litres", "litre"),
  ("meters", "meter"),
  ("metric ton", "metric_ton"),
  ("metric tons", "metric_ton"),
  ("miles", "mile"),
  ("milligrams", "milligram"),
  ("milliliter", "millilitre"),
  ("milliliters", "millilitre"),
  ("millilitres", "millilitre"),
  ("min", "minute"),
  ("minutes", "minute"),
  ("months", "month"),
  ("ounce", "fluid_ounce"),
  ("ounces", "fluid_ounce"),
  ("ounces", "ounce"),
  ("oz", "fluid_ounce"),
  ("oz", "ounce"),
  ("ozs", "fluid_ounce"),
  ("ozs", "ounce"),
  ("pints", "pint"),
  ("pounds", "pound"),
  ("qt", "quart"),
  ("qts", "quart"),
  ("quarts", "quart"),
  ("sec", "second"),
  ("seconds", "second"),
  ("short ton", "short_ton"),
  ("short tons", "short_ton"),
  ("sq centimeter", "square_centimeter"),
  ("sq centimeters", "square_centimeter"),
  ("sq cm", "square_centimeter"),
  ("sq feet", "square_foot"),
  ("sq foot", "square_foot"),
  ("sq ft", "square_foot"),
  ("sq in", "square_inch"),
  ("sq inch", "square_inch"),
  ("sq inches", "square_inch"),
  ("sq kilometer", "square_kilometer"),
  ("sq kilometers", "square_kilometer"),
  ("sq km", "square_kilometer"),
  ("sq m", "square_meter"),
  ("sq meter", "square_meter"),
  ("sq meters", "square_meter"),
  ("sq mi", "square_mile"),
  ("sq mile", "square_mile"),
  ("sq miles", "square_mile"),
  ("sq y", "square_yard"),
  ("sq yard", "square_yard"),
  ("sq yards", "square_yard"),
  ("square centimeter", "square_centimeter"),
  ("square centimeters", "square_centimeter"),
  ("square cm", "square_centimeter"),
  ("square feet", "square_foot"),
  ("square foot", "square_foot"),
  ("square ft", "square_foot"),
  ("square in", "square_inch"),
  ("square inch", "square_inch"),
  ("square inches", "square_inch"),
  ("square kilometer", "square_kilometer"),
  ("square kilometers", "square_kilometer"),
  ("square km", "square_kilometer"),
  ("square m", "square_meter"),
  ("square meter", "square_meter"),
  ("square meters", "square_meter"),
  ("square mi", "square_mile"),
  ("square mile", "square_mile"),
  ("square miles", "square_mile"),
  ("square y", "square_yard"),
  ("square yard", "square_yard"),
  ("square yards", "square_yard"),
  ("tablespoons", "tablespoon"),
  ("tbs", "tablespoon"),
  ("tbsp", "tablespoon"),
  ("teaspoons", "teaspoon"),
  ("ton", "short_ton"),
  ("tonne", "metric_ton"),
  ("ts", "teaspoon"),
  ("tsp", "teaspoon"),
  ("weeks", "week"),
  ("yards", "yard"),
  ("years", "year")]

/-- `UNITS_OUTPUT`: human representation templates (singular, plural);
`{}` is the number placeholder, exactly as in the source. -/
def UNITS_OUTPUT : List (String × String × String) := [
  ("are", "{} are", "{} ares"),
  ("celsius", "{}°C", "{}°C"),
  ("centimeter", "{} centimeter", "{} centimeters"),
  ("cubic_centimeter", "{} cubic centimeter", "{} cubic centimeters"),
  ("cubic_foot", "{} cubic foot", "{} cubic feet"),
  ("cubic_inch", "{} cubic inch", "{} cubic inches"),
  ("cubic_kilometer", "{} cubic kilometer", "{} cubic kilometers"),
  ("cubic_meter", "{} cubic meter", "{} cubic meters"),
  ("cubic_mile", "{} cubic mile", "{} cubic miles"),
  ("cubic_yard", "{} cubic yard", "{} cubic yards"),
  ("cup", "{} US cup", "{} US cups"),
  ("day", "{} day", "{} days"),
  ("fahrenheit", "{}°F", "{}°F"),
  ("fluid_ounce", "{} US fluid ounce", "{} US fluid ounces"),
  ("foot", "{} foot", "{} feet"),
  ("gallon", "{} US gallon", "{} US gallons"),
  ("gram", "{} gram", "{} grams"),
  ("hectare", "{} hectare", "{} hectares"),
  ("hour", "{} hour", "{} hours"),
  ("inch", "{} inch", "{} inches"),
  ("kelvin", "{}K", "{}K"),
  ("kilogram", "{} kilogram", "{} kilograms"),
  ("kilometer", "{} kilometer", "{} kilometers"),
  ("litre", "{} litre", "{} litres"),
  ("meter", "{} meter", "{} meters"),
  ("metric_ton", "{} metric ton", "{} metric tons"),
  ("mile", "{} mile", "{} miles"),
  ("milligram", "{} milligram", "{} milligrams"),
  ("millilitre", "{} millilitre", "{} millilitres"),
  ("minute", "{} minute", "{} minutes"),
  ("month", "{} month", "{} months"),
  ("ounce", "{} ounce", "{} ounces"),
  ("pint", "{} US pint", "{} US pints"),
  ("pound", "{} pound", "{} pounds"),
  ("quart", "{} quart", "{} quarts"),
  ("second", "{} second", "{} seconds"),
  ("square_centimeter", "{} square centimeter", "{} square centimeters"),
  ("square_foot", "{} square foot", "{} square feet"),
  ("square_inch", "{} square inch", "{} square inches"),
  ("square_kilometer", "{} square kilometer", "{} square kilometers"),
  ("square_meter", "{} square meter", "{} square meters"),
  ("square_mile", "{} square mile", "{} square miles"),
  ("square_yard", "{} square yard", "{} square yards"),
  ("tablespoon", "{} US tablespoon", "{} US tablespoons"),
  ("teaspoon", "{} US teaspoon", "{} US teaspoons"),
  ("short_ton", "{} short ton", "{} short tons"),
  ("week", "{} week", "{} weeks"),
  ("yard", "{} yard", "{} yards"),
  ("year", "{} year", "{} years")]

/-- `CONNECTORS`: normal connector words in user input. -/
def CONNECTORS : List String := ["to", "in"]

/-- A `NUMBERS_INFO` entry: reference value, unit label, dimension label
and target label. -/
structure FactEntry where
  value : ℚ
  unit : String
  dimension : String
  target : String
deriving DecidableEq, Repr

/-- `NUMBERS_INFO`: the facts list about numbers (labels verbatim,
including the source's typos). -/
def NUMBERS_INFO : List FactEntry := [
  ⟨32/10, "meters", "wingspan", "a large andean condor"⟩,
  ⟨55/10, "meters", "length", "a white wale"⟩,
  ⟨41, "centimeters", "height", "a blue penguin"⟩,
  ⟨146, "meters", "height", "the Great Pyramid of Giza"⟩,
  ⟨113, "km/h", "top speed", "a cheetah"⟩,
  ⟨3475, "kilometers", "diameter", "the Moon"⟩,
  ⟨1600, "kilograms", "weight", " a white wale"⟩,
  ⟨8850, "meters", "height", "Mount Everest"⟩,
  ⟨5500, "°C", "temperature", "the surface of the Sun"⟩,
  ⟨12756, "kilometers", "diameter", "the Earth"⟩,
  ⟨6430, "kilometers", "lenght", "the Great Wall of China"⟩,
  ⟨100, "°C", "temperature", "boiling water"⟩]

/-- `NUMBERS_UNCERTAINTY`: the facts lookup picks randomly among this many
top matches. -/
def NUMBERS_UNCERTAINTY : Nat := 3

/-- `SUGGESTED_SECOND_UNIT`: table suggesting a destination unit when the
input names a single unit. -/
def SUGGESTED_SECOND_UNIT : List (String × String) := [
  ("are", "square_yard"),
  ("celsius", "fahrenheit"),
  ("centimeter", "inch"),
  ("cubic_centimeter", "fluid_ounce"),
  ("cubic_foot", "litre"),
  ("cubic_inch", "millilitre"),
  ("cubic_kilometer", "cubic_mile"),
  ("cubic_meter", "cubic_yard"),
  ("cubic_mile", "cubic_kilometer"),
  ("cubic_yard", "cubic_meter"),
  ("cup", "millilitre"),
  ("day", "hour"),
  ("fahrenheit", "celsius"),
  ("fluid_ounce", "millilitre"),
  ("foot", "meter"),
  ("gallon", "litre"),
  ("gram", "ounce"),
  ("hectare", "square_mile"),
  ("hour", "second"),
  ("inch", "centimeter"),
  ("kilogram", "pound"),
  ("kilometer", "mile"),
  ("litre", "gallon"),
  ("meter", "yard"),
  ("mile", "kilometer"),
  ("minute", "second"),
  ("month", "day"),
  ("ounce", "gram"),
  ("pint", "litre"),
  ("pound", "kilogram"),
  ("quart", "litre"),
  ("square_centimeter", "square_inch"),
  ("square_foot", "square_meter"),
  ("square_inch", "square_centimeter"),
  ("square_kilometer", "square_mile"),
  ("square_meter", "square_foot"),
  ("square_mile", "square_kilometer"),
  ("square_yard", "square_meter"),
  ("tablespoon", "millilitre"),
  ("teaspoon", "millilitre"),
  ("week", "hour"),
  ("yard", "meter"),
  ("year", "day")]

/-! ### Association-list primitives (Python `dict` in insertion order) -/

/-- Lookup in an insertion-ordered association list (`d[k]`respecting the
first binding; keys are unique in all tables built here). -/
def lookupTbl {α : Type} : List (String × α) → String → Option α
  | [], _ => none
  | (k', v) :: rest, k => if k' = k then some v else lookupTbl rest k

/-- Unchecked Python indexing `d[k]`: a missing key is a `KeyError`,
modelled as `Except.error`. -/
def pyGet {α : Type} (tbl : List (String × α)) (k : String) : Except Unit α :=
  match lookupTbl tbl k with
  | some v => Except.ok v
  | none => Except.error ()

/-- `d.setdefault(k, []).append(v)`: append `v` to the list bound to `k`,
binding `k` to the fresh list `[v]` (at the end, in insertion order) when
absent. -/
def addSyn : List (String × List String) → String → String → List (String × List String)
  | [], k, v => [(k, [v])]
  | (k', vs) :: rest, k, v =>
    if k' = k then (k', vs ++ [v]) :: rest else (k', vs) :: addSyn rest k v

/-- `d[k] = vs`: bind (or rebind) `k` to `vs`. -/
def setKey : List (String × List String) → String → List String → List (String × List String)
  | [], k, vs => [(k, vs)]
  | (k', vs') :: rest, k, vs =>
    if k' = k then (k, vs) :: rest else (k', vs') :: setKey rest k vs

/-! ### `_UnitManager.__init__`: the derived lookup structures -/

/-- `_UnitManager._units`: token → list of candidate canonical units.
Built exactly as in `__init__`: `{k: [k] for k in SUPPORTED_UNITS}`, then
the `EXTRA_UNITS_INPUT` synonyms via setdefault-append, then the symbols,
each linear symbol also binding `symbol + 'SUPERSCRIPT_TWO'/'THREE'` to
the candidate list of `square_<unit>` / `cubic_<unit>` (in the source that
assignment aliases the same list object, but no later mutation touches it,
so copying the current value is equivalent; the looked-up key always
exists for the linear symbols of the table, so the `.getD []` default is
never taken). -/
def unitsMap : List (String × List String) :=
  let m0 := SUPPORTED_UNITS.map (fun e => (e.1, [e.1]))
  let m1 := EXTRA_UNITS_INPUT.foldl (fun m e => addSyn m e.1 e.2) m0
  UNIT_SYMBOLS.foldl
    (fun m e =>
      let m2 := addSyn m e.1 e.2.1
      if e.2.2 then
        let sq := (lookupTbl m2 ("square_" ++ e.2.1)).getD []
        let cu := (lookupTbl m2 ("cubic_" ++ e.2.1)).getD []
        setKey (setKey m2 (e.1 ++ "SUPERSCRIPT_TWO") sq) (e.1 ++ "SUPERSCRIPT_THREE") cu
      else m2)
    m1

/-- Stable insertion (descending by key length) used to model Python's
stable `sorted(..., key=len, reverse=True)`: a new element goes after all
earlier elements of greater-or-equal length. -/
def insertLenDesc (x : String × String) : List (String × String) → List (String × String)
  | [] => [x]
  | y :: ys => if x.1.length ≤ y.1.length then y :: insertLenDesc x ys else x :: y :: ys

/-- `_UnitManager.complex_units`: the multi-word aliases (those whose name
contains a space), sorted by descending name length (stable). -/
def complex_units : List (String × String) :=
  (EXTRA_UNITS_INPUT.filter (fun e => e.1.data.contains ' ')).foldl
    (fun acc e => insertLenDesc e acc) []

/-- The `UnitInfo` namedtuple: `mult unit human_single human_plural`. -/
structure UnitInfo where
  mult : Option ℚ
  unit : PintUnit
  human_single : String
  human_plural : String
deriving DecidableEq, Repr

/-- Inner loop of `get_units_info` for a fixed `b_u_from`: walk the
destination candidates, keeping the dimensionally matching pairs (the
`SUPPORTED_UNITS` lookups happen before the dimensionality test and the
`UNITS_OUTPUT` lookups only after it, as in the source). -/
def crossRow (b_u_from : String) : List String → Except Unit (List (UnitInfo × UnitInfo))
  | [] => Except.ok []
  | b_u_to :: rest =>
    match pyGet SUPPORTED_UNITS b_u_from with
    | Except.error e => Except.error e
    | Except.ok sFrom =>
      match pyGet SUPPORTED_UNITS b_u_to with
      | Except.error e => Except.error e
      | Except.ok sTo =>
        if sFrom.2.dim = sTo.2.dim then
          match pyGet UNITS_OUTPUT b_u_from with
          | Except.error e => Except.error e
          | Except.ok oFrom =>
            match pyGet UNITS_OUTPUT b_u_to with
            | Except.error e => Except.error e
            | Except.ok oTo =>
              match crossRow b_u_from rest with
              | Except.error e => Except.error e
              | Except.ok others =>
                Except.ok
                  ((⟨sFrom.1, sFrom.2, oFrom.1, oFrom.2⟩,
                    ⟨sTo.1, sTo.2, oTo.1, oTo.2⟩) :: others)
        else crossRow b_u_from rest

/-- Outer loop of `get_units_info`: the cross product of the two candidate
lists, filtered by equal dimensionality. -/
def crossUseful : List String → List String → Except Unit (List (UnitInfo × UnitInfo))
  | [], _ => Except.ok []
  | bf :: rest, lt =>
    match crossRow bf lt with
    | Except.error e => Except.error e
    | Except.ok row =>
      match crossUseful rest lt with
      | Except.error e => Except.error e
      | Except.ok others => Except.ok (row ++ others)

/-- `_UnitManager.get_units_info`: return the pair of unit infos when the
dimensional crossing is unambiguous (`len(useful) == 1`), `none`
otherwise; unknown tokens raise (`KeyError`, modelled as `error`). -/
def get_units_info (unit_token_from unit_token_to : String) :
    Except Unit (Option (UnitInfo × UnitInfo)) :=
  match pyGet unitsMap unit_token_from with
  | Except.error e => Except.error e
  | Except.ok base_units_from =>
    match pyGet unitsMap unit_token_to with
    | Except.error e => Except.error e
    | Except.ok base_units_to =>
      match crossUseful base_units_from base_units_to with
      | Except.error e => Except.error e
      | Except.ok useful =>
        match useful with
        | [u] => Except.ok (some u)
        | _ => Except.ok none

/-- `_UnitManager.suggest`: the suggestion-table entry of the first
candidate that has one (implicit `None` when no candidate does). -/
def suggest (unit_token_from : String) : Except Unit (Option String) :=
  match pyGet unitsMap unit_token_from with
  | Except.error e => Except.error e
  | Except.ok base_units_from =>
    match base_units_from.find? (fun b => (lookupTbl SUGGESTED_SECOND_UNIT b).isSome) with
    | some b => Except.ok (lookupTbl SUGGESTED_SECOND_UNIT b)
    | none => Except.ok none

/-! ### Numbers: `RE_NUMBER` matches and `parse_number` -/

/-- The value of an ASCII digit character. -/
def digitVal (c : Char) : Nat := c.toNat - 48

/-- Decimal value of a digit list (most significant first). -/
def digitsToNat (ds : List Nat) : Nat := ds.foldl (fun a d => a * 10 + d) 0

/-- A match of `RE_NUMBER`: the `int`, `frac` and `exp` groups.  `int` may
be empty; `frac` is present (possibly empty) exactly when a `.`/`,`
separator was consumed; `exp` records the optional sign and its digits
(the grammar requires at least one digit). -/
structure NumMatch where
  intPart : List Nat
  fracPart : Option (List Nat)
  expPart : Option (Bool × List Nat)
deriving DecidableEq, Repr

/-- A Python number: its exact rational value, and whether it is a
`float` (as opposed to `int`) — `convert` renders the two differently. -/
structure PyNum where
  q : ℚ
  isFloat : Bool
deriving DecidableEq, Repr

/-- `parse_number`: integer part (0 when the group is empty), plus the
fraction `frac / 10 ** len(frac)` when the `frac` group is a nonempty
string, times `10 ** exp` when an exponent is present (`int * int` stays
`int`; a fraction or a negative exponent makes the result a `float`). -/
def parse_number (m : NumMatch) : PyNum :=
  let r0 : ℚ := if m.intPart ≠ [] then (digitsToNat m.intPart : ℚ) else 0
  let rf : ℚ × Bool :=
    match m.fracPart with
    | some ds =>
      if ds ≠ [] then (r0 + (digitsToNat ds : ℚ) / 10 ^ ds.length, true) else (r0, false)
    | none => (r0, false)
  match m.expPart with
  | some se =>
    let e : Int := (if se.1 then -1 else 1) * (digitsToNat se.2 : Int)
    ⟨rf.1 * (10 : ℚ) ^ e, rf.2 || decide (e < 0)⟩
  | none => ⟨rf.1, rf.2⟩

/-- Match `RE_NUMBER` anchored at the head of `cs`: the lookahead requires
a digit, or a separator followed by a digit; then greedy digits, an
optional separator with greedy digits, and an optional exponent that is
only consumed when at least one exponent digit follows.  Returns the
match and its length. -/
def matchNumberAt (cs : List Char) : Option (NumMatch × Nat) :=
  let lookahead : Bool :=
    match cs with
    | [] => false
    | c :: rest =>
      c.isDigit ||
        ((c = '.' || c = ',') && (match rest with | d :: _ => d.isDigit | [] => false))
  if lookahead then
    let ds := cs.takeWhile Char.isDigit
    let r1 := cs.drop ds.length
    let fr : Option (List Nat) × Nat × List Char :=
      match r1 with
      | c :: rest =>
        if c = '.' || c = ',' then
          let fs := rest.takeWhile Char.isDigit
          (some (fs.map digitVal), fs.length + 1, rest.drop fs.length)
        else (none, 0, r1)
      | [] => (none, 0, r1)
    let ex : Option (Bool × List Nat) × Nat :=
      match fr.2.2 with
      | e :: rest2 =>
        if e = 'e' || e = 'E' then
          let sg : Bool × Nat × List Char :=
            match rest2 with
            | '-' :: r => (true, 1, r)
            | '+' :: r => (false, 1, r)
            | _ => (false, 0, rest2)
          let es := sg.2.2.takeWhile Char.isDigit
          if es.isEmpty then (none, 0) else (some (sg.1, es.map digitVal), 1 + sg.2.1 + es.length)
        else (none, 0)
      | [] => (none, 0)
    some (⟨ds.map digitVal, fr.1, ex.1⟩, ds.length + fr.2.1 + ex.2)
  else none

/-- `re.search(RE_NUMBER, ...)`: the leftmost match, with its span. -/
def findNumberAux (pos : Nat) (cs : List Char) : Option (NumMatch × Nat × Nat) :=
  match matchNumberAt cs with
  | some (m, len) => some (m, pos, pos + len)
  | none =>
    match cs with
    | [] => none
    | _ :: rest => findNumberAux (pos + 1) rest

def findNumber (cs : List Char) : Option (NumMatch × Nat × Nat) := findNumberAux 0 cs

/-! ### Rendering numbers (`str`, `round`, `"%.4f"`) -/

def digitChar (n : Nat) : Char := Char.ofNat (48 + n)

/-- Decimal digits of a natural number (fuel-based so that it unfolds by
plain reduction; the fuel `n + 1` always suffices). -/
def natCharsAux : Nat → Nat → List Char
  | 0, _ => []
  | fuel + 1, n => if n < 10 then [digitChar n] else natCharsAux fuel (n / 10) ++ [digitChar (n % 10)]

def natChars (n : Nat) : List Char := natCharsAux (n + 1) n

def intChars (n : Int) : List Char := (if n < 0 then ['-'] else []) ++ natChars n.natAbs

/-- `str` of a Python `int`. -/
def intStr (n : Int) : String := ⟨intChars n⟩

/-- Floor of a rational (the denominator is positive, so `fdiv` floors). -/
def ratFloor (q : ℚ) : Int := q.num.fdiv q.den

/-- Python's `round` to an integer: nearest, ties to even. -/
def pyRound (q : ℚ) : Int :=
  let f := ratFloor q
  let frac := q - (f : ℚ)
  if frac < 1/2 then f
  else if 1/2 < frac then f + 1
  else if f % 2 = 0 then f else f + 1

/-- `round(x, 4)`: the magnitude rounded to 4 decimal places. -/
def pyRound4 (q : ℚ) : ℚ := (pyRound (q * 10000) : ℚ) / 10000

/-- Smallest `k` (up to the fuel) with `q * 10 ^ k` integral. -/
def decExp : Nat → ℚ → Nat
  | 0, _ => 0
  | fuel + 1, q => if q.den = 1 then 0 else decExp fuel (q * 10) + 1

/-- `repr`/`str` of a Python `float`: the shortest decimal digit string.
Modelled exactly for values that are short decimals (as every float built
by this program from its decimal literals and tables is); `q.den` is then
a power of ten and the minimal exponent `k` below is its exact decimal
length, so no trailing zeros appear. -/
def pyFloatRepr (q : ℚ) : String :=
  if q.den = 1 then intStr q.num ++ ".0"
  else
    let k := decExp 400 q
    let n := (q * 10 ^ k).num
    ⟨(if n < 0 then ['-'] else []) ++
      natChars (n.natAbs / 10 ^ k) ++ '.' :: natChars (n.natAbs % 10 ^ k)⟩

/-- `str(number)` for the parsed number. -/
def pyNumStr (n : PyNum) : String := if n.isFloat then pyFloatRepr n.q else intStr n.q.num

/-- Zero left-padding to `k` characters. -/
def padZeros (k : Nat) (cs : List Char) : List Char := List.replicate (k - cs.length) '0' ++ cs

/-- `"%.4f" % r` (exact for the values it is applied to, which are already
multiples of `1/10^4`). -/
def fixed4 (r : ℚ) : String :=
  let k := pyRound (r * 10000)
  ⟨(if k < 0 then ['-'] else []) ++
    natChars (k.natAbs / 10000) ++ '.' :: padZeros 4 (natChars (k.natAbs % 10000))⟩

/-- The source's `while nicer_res[-1] == '0': nicer_res = nicer_res[:-1]`. -/
def stripTrailingZeros (s : String) : String :=
  ⟨(s.data.reverse.dropWhile (fun c => c = '0')).reverse⟩

/-- The destination-side number string: `str(int(rounded))` when the
rounded value is whole, otherwise `"%.4f"` with trailing zeros removed. -/
def nicerRes (rounded : ℚ) : String :=
  if rounded.den = 1 then intStr rounded.num
  else stripTrailingZeros (fixed4 rounded)

/-- The destination template: plural, overridden to singular when the
rounded value is the whole number 1. -/
def chosenTo (rounded : ℚ) (human_single human_plural : String) : String :=
  if rounded.den = 1 ∧ rounded = 1 then human_single else human_plural

/-- `str.format` with a single positional `{}` placeholder. -/
def fmtChars : List Char → List Char → List Char
  | [], _ => []
  | '{' :: '}' :: rest, arg => arg ++ rest
  | c :: rest, arg => c :: fmtChars rest arg

def formatTpl (tpl : String) (arg : String) : String := ⟨fmtChars tpl.data arg.data⟩

/-! ### `_numbers_info` -/

/-- Lexicographic `≤` on char lists (Python string comparison, by code
point). -/
def charListLe : List Char → List Char → Bool
  | [], _ => true
  | _ :: _, [] => false
  | a :: as, b :: bs =>
    if a.toNat < b.toNat then true else if b.toNat < a.toNat then false else charListLe as bs

/-- `≤` on `(distance, text)` entries: Python's tuple order. -/
def entryLe (a b : ℚ × String) : Bool :=
  if a.1 < b.1 then true else if b.1 < a.1 then false else charListLe a.2.data b.2.data

/-- Insert into a `≤`-sorted list (before the first element it is `≤`). -/
def insertSorted {α : Type} (le : α → α → Bool) (x : α) : List α → List α
  | [] => [x]
  | y :: ys => if le x y then x :: y :: ys else y :: insertSorted le x ys

/-- Insertion sort; for the total order `entryLe` this agrees with
Python's `sorted`. -/
def sortByLe {α : Type} (le : α → α → Bool) (l : List α) : List α :=
  l.foldr (insertSorted le) []

/-- The sort key standing for the source's `abs(log10(number) -
log10(value))`: for positive `n`, `v` the float distance is
`|log10 (n/v)|`, a strictly increasing function of `max (n/v) (v/n)`, so
sorting by this exact rational key yields the same order without real
logarithms. -/
def distKey (n v : ℚ) : ℚ := max (n / v) (v / n)

/-- One fact's classification in `_numbers_info`: the three ratio bands,
each rendering its message template (with `mult = int(round(number /
value))` in the third band). -/
def bandMsg (number : PyNum) (f : FactEntry) : Option String :=
  if f.value * (4/10) ≤ number.q ∧ number.q ≤ f.value * (6/10) then
    some (pyNumStr number ++ " " ++ f.unit ++ " is about half of the " ++
      f.dimension ++ " of " ++ f.target)
  else if f.value * (9/10) ≤ number.q ∧ number.q ≤ f.value * (11/10) then
    some (pyNumStr number ++ " " ++ f.unit ++ " is close to the " ++
      f.dimension ++ " of " ++ f.target)
  else if f.value * (17/10) ≤ number.q ∧ number.q ≤ f.value * 100 then
    some (pyNumStr number ++ " " ++ f.unit ++ " is around " ++
      intStr (pyRound (number.q / f.value)) ++ " times the " ++
      f.dimension ++ " of " ++ f.target)
  else none

/-- The `(distance, text)` list accumulated by `_numbers_info`. -/
def numbersResults (table : List FactEntry) (number : PyNum) : List (ℚ × String) :=
  table.filterMap fun f => (bandMsg number f).map fun text => (distKey number.q f.value, text)

/-- The candidate texts offered to `random.choice`: the sorted results,
truncated to `NUMBERS_UNCERTAINTY`. -/
def numbersChoices (table : List FactEntry) (number : PyNum) : List String :=
  ((sortByLe entryLe (numbersResults table number)).take NUMBERS_UNCERTAINTY).map (·.2)

/-- `_numbers_info`, with the random selection abstracted into `pick`
(the source draws uniformly from the candidate list). -/
def numbersInfo (table : List FactEntry) (pick : List String → String) (number : PyNum) :
    Option String :=
  let cs := numbersChoices table number
  if cs.isEmpty then none else some (pick cs)

/-! ### Text normalisation and tokenisation -/

/-- `str.strip()` (the whitespace occurring in inputs here). -/
def pyStrip (cs : List Char) : List Char :=
  ((cs.dropWhile Char.isWhitespace).reverse.dropWhile Char.isWhitespace).reverse

/-- `str.lower()`. -/
def pyLower (cs : List Char) : List Char := cs.map Char.toLower

/-- `\w` (ASCII fragment; every token of the tables is ASCII-word apart
from `°`, which is a non-word character for Python's `\w` as well). -/
def isWordChar (c : Char) : Bool := c.isAlpha || c.isDigit || c = '_'

/-- `re.split('\W', s, maxsplit)`: split on single non-word characters,
keeping empty pieces; after `maxsplit` splits the remainder (separators
included) is one final piece.  The source passes `re.UNICODE` (= 32)
positionally, i.e. as `maxsplit`. -/
def pySplitAux : Nat → List Char → List Char → List (List Char)
  | _, cur, [] => [cur.reverse]
  | maxsplit, cur, c :: rest =>
    if isWordChar c then pySplitAux maxsplit (c :: cur) rest
    else
      match maxsplit with
      | 0 => [cur.reverse ++ c :: rest]
      | k + 1 => cur.reverse :: pySplitAux k [] rest

def pySplitW (maxsplit : Nat) (cs : List Char) : List (List Char) := pySplitAux maxsplit [] cs

def isPrefixChars : List Char → List Char → Bool
  | [], _ => true
  | _ :: _, [] => false
  | a :: as, b :: bs => a = b && isPrefixChars as bs

/-- Match lazy-spaces + `pat` + lazy-spaces + `digit` at the head of `cs`
(the lazy stars are forced by the concrete characters that follow, so
taking all spaces is equivalent); returns the rest after the match. -/
def trySpacesThen (pat : List Char) (digit : Char) (cs : List Char) : Option (List Char) :=
  let s1 := cs.dropWhile (fun c => c = ' ')
  if isPrefixChars pat s1 then
    let r2 := (s1.drop pat.length).dropWhile (fun c => c = ' ')
    match r2 with
    | d :: rest => if d = digit then some rest else none
    | [] => none
  else none

/-- One attempted match of the square/cubic marker regex at the current
position, alternatives in the source's order: ` *?\*\* *?D`, ` *?\^ *?D`,
`(?<=[a-zA-Z])D`, and the superscript character. -/
def subSupStep (digit sup : Char) (prevAlpha : Bool) (cs : List Char) : Option (List Char) :=
  match trySpacesThen ['*', '*'] digit cs with
  | some r => some r
  | none =>
    match trySpacesThen ['^'] digit cs with
    | some r => some r
    | none =>
      match cs with
      | c :: rest =>
        if prevAlpha && c = digit then some rest
        else if c = sup then some rest
        else none
      | [] => none

/-- `re.sub` scan for one marker regex: leftmost, non-overlapping; the
lookbehind sees the character of the original text before the match
start (after a match that character is a digit or superscript, never a
letter).  Fuel-based: every step consumes at least one character. -/
def subSupAux (digit sup : Char) (marker : List Char) :
    Nat → Bool → List Char → List Char
  | 0, _, cs => cs
  | fuel + 1, prevAlpha, cs =>
    match subSupStep digit sup prevAlpha cs with
    | some r => marker ++ subSupAux digit sup marker fuel false r
    | none =>
      match cs with
      | [] => []
      | c :: rest => c :: subSupAux digit sup marker fuel c.isAlpha rest

/-- The two normalisation passes replacing square/cubic markup with the
internal markers. -/
def subSuperscripts (cs : List Char) : List Char :=
  let t2 := subSupAux '2' '²' "SUPERSCRIPT_TWO".data (cs.length + 1) false cs
  subSupAux '3' '³' "SUPERSCRIPT_THREE".data (t2.length + 1) false t2

/-- `re.sub(pat, repl, text)` for a plain-text pattern: replace every
leftmost non-overlapping occurrence; the replacement is not rescanned. -/
def replaceAllAux (pat repl : List Char) : Nat → List Char → List Char
  | 0, cs => cs
  | fuel + 1, cs =>
    match cs with
    | [] => []
    | c :: rest =>
      if isPrefixChars pat (c :: rest) then
        repl ++ replaceAllAux pat repl fuel ((c :: rest).drop pat.length)
      else c :: replaceAllAux pat repl fuel rest

def replaceAll (cs pat repl : List Char) : List Char := replaceAllAux pat repl (cs.length + 1) cs

/-- The complex-units substitution loop of `convert` (the multi-word
alias phrases contain no regex metacharacters). -/
def applyComplexUnits (cs : List Char) : List Char :=
  complex_units.foldl (fun t e => replaceAll t e.1.data e.2.data) cs

/-! ### Quantity computation and the orchestrator -/

/-- A magnitude in unit `u`, expressed in SI base units (pint units are
affine: `mag * factor + offset`). -/
def engineToBase (mag : ℚ) (u : PintUnit) : ℚ := mag * u.factor + u.offset

/-- Lines 563–572 of `convert`: scale by the source multiplier (when
present), convert through the engine — a dimensionality mismatch raises
`DimensionalityError`, caught by `convert` (here: `none`) — then divide
by the destination multiplier (when present). -/
def computeConversion (number : ℚ) (unit_from unit_to : UnitInfo) : Option ℚ :=
  let to_convert := match unit_from.mult with | some m => number * m | none => number
  if unit_from.unit.dim = unit_to.unit.dim then
    let converted := (engineToBase to_convert unit_from.unit - unit_to.unit.offset) / unit_to.unit.factor
    some (match unit_to.mult with | some m => converted / m | none => converted)
  else none

/-- The observable outcome of `convert`: a formatted sentence, the
silent "no result" (`None`), or an uncaught Python exception. -/
inductive ConvResult where
  | crash
  | noResult
  | result (s : String)
deriving DecidableEq, Repr

/-- The connector-stripping loop (lines 535–543): one pass over the
connector list, removing the first occurrence of each connector present
and stopping as soon as exactly two tokens remain; falling off the loop
(the `for`/`else`) yields "no result" (`none`). -/
def stripLoop : List String → List String → Option (List String)
  | [], _ => none
  | conn :: conns, tokens =>
    if tokens.contains conn then
      let tokens' := tokens.erase conn
      if tokens'.length = 2 then some tokens' else stripLoop conns tokens'
    else stripLoop conns tokens

/-- Lines 546–556: pick `tokens[t_from_pos]` and `tokens[t_to_pos]`
(`from = 1, to = 0` when a token was found before the number, else
`from = 0, to = 1`); an out-of-range index is an `IndexError`. -/
def orderTokens (tokens : List String) (found_tokens_before : Bool) :
    Except Unit (String × String) :=
  let t_from_pos : Nat := if found_tokens_before then 1 else 0
  let t_to_pos : Nat := if found_tokens_before then 0 else 1
  match tokens.get? t_from_pos, tokens.get? t_to_pos with
  | some tf, some tt => Except.ok (tf, tt)
  | _, _ => Except.error ()

/-- Lines 524–556 of `convert`: the one-token suggestion path (appending
the suggested unit and forcing `found_tokens_before = false`), the
more-than-two connector stripping path, and the from/to selection. -/
def resolveTokens (tokens : List String) (found_tokens_before : Bool) :
    Except Unit (Option (String × String)) :=
  match tokens with
  | [t] =>
    match suggest t with
    | Except.error e => Except.error e
    | Except.ok none => Except.ok none
    | Except.ok (some suggested) => (orderTokens [t, suggested] false).map some
  | _ =>
    if 2 < tokens.length then
      match stripLoop CONNECTORS tokens with
      | none => Except.ok none
      | some ts => (orderTokens ts found_tokens_before).map some
    else (orderTokens tokens found_tokens_before).map some

/-- Token matching: the source scans `useful_tokens` (all `_units` keys
and the connectors, sorted by descending length) for an exact-equality
match, so a part matches exactly when it is a key or a connector; the
scan order (which in the source depends on Python set iteration order)
is unobservable under equality matching. -/
def isUsefulToken (part : String) : Bool :=
  (lookupTbl unitsMap part).isSome || CONNECTORS.contains part

/-- Lines 575–598: result formatting. -/
def renderResult (number : PyNum) (magnitude : ℚ) (unit_from unit_to : UnitInfo) : String :=
  let rounded := pyRound4 magnitude
  let human_to := chosenTo rounded unit_to.human_single unit_to.human_plural
  let nicer_res := nicerRes rounded
  let human_from := if number.q = 1 then unit_from.human_single else unit_from.human_plural
  let nicer_orig :=
    if number.isFloat ∧ number.q.den = 1 then intStr number.q.num else pyNumStr number
  formatTpl human_from nicer_orig ++ " = " ++ formatTpl human_to nicer_res

/-- `convert`, parameterised by the facts table (`NUMBERS_INFO`, patched
in the source's tests) and the random selection `pick`. -/
def convertWith (numbers_table : List FactEntry) (pick : List String → String)
    (source : String) : ConvResult :=
  let text0 := pyLower (pyStrip source.data)
  let text1 := subSuperscripts text0
  let text := applyComplexUnits text1
  match findNumber text with
  | none => ConvResult.noResult
  | some (m, num_start, num_end) =>
    let number := parse_number m
    let partsBefore := pySplitW 32 (text.take num_start)
    let partsAfter := pySplitW 32 (text.drop num_end)
    let tokensBefore := (partsBefore.map fun p => (⟨p⟩ : String)).filter isUsefulToken
    let tokensAfter := (partsAfter.map fun p => (⟨p⟩ : String)).filter isUsefulToken
    let found_tokens_before := !tokensBefore.isEmpty
    let tokens := tokensBefore ++ tokensAfter
    if tokens.isEmpty then
      if num_end - num_start = (pyStrip text).length then
        match numbersInfo numbers_table pick number with
        | none => ConvResult.noResult
        | some s => ConvResult.result s
      else ConvResult.noResult
    else
      match resolveTokens tokens found_tokens_before with
      | Except.error _ => ConvResult.crash
      | Except.ok none => ConvResult.noResult
      | Except.ok (some (t_from, t_to)) =>
        match get_units_info t_from t_to with
        | Except.error _ => ConvResult.crash
        | Except.ok none => ConvResult.noResult
        | Except.ok (some (unit_from, unit_to)) =>
          match computeConversion number.q unit_from unit_to with
          | none => ConvResult.noResult
          | some converted => ConvResult.result (renderResult number converted unit_from unit_to)

/-- A concrete admissible selector (`random.choice` always returns a
member of its argument; this one returns the first). -/
def pickFirst (l : List String) : String := l.headD ""

/-- The public `convert` with the real facts table. -/
def convert (source : String) : ConvResult := convertWith NUMBERS_INFO pickFirst source

/-! ### Transparent characterisations used by the claims -/

/-- The dimensionality of a canonical unit name (the default is never
taken for catalog names). -/
def dimOfName (b : String) : Dimensionality :=
  ((lookupTbl SUPPORTED_UNITS b).getD (none, uMeter)).2.dim

/-- The `UnitInfo` of a canonical unit name, read off the two tables (the
defaults are never taken for catalog names). -/
def mkUnitInfo (b : String) : UnitInfo :=
  let s := (lookupTbl SUPPORTED_UNITS b).getD (none, uMeter)
  let o := (lookupTbl UNITS_OUTPUT b).getD ("", "")
  ⟨s.1, s.2, o.1, o.2⟩

/-- The cross product of two candidate lists, keeping the pairs of equal
dimensionality (the pairing's survivors, as the claim describes them). -/
def survivingPairs (lf lt : List String) : List (String × String) :=
  lf.flatMap fun bf =>
    (lt.filter fun bt => decide (dimOfName bf = dimOfName bt)).map fun bt => (bf, bt)

/-- "Exactly one surviving pair": its unit infos; zero or several: `none`. -/
def onePairInfo (l : List (String × String)) : Option (UnitInfo × UnitInfo) :=
  match l with
  | [p] => some (mkUnitInfo p.1, mkUnitInfo p.2)
  | _ => none

/-- Modelled from the claim's words for the connector-stripping step:
connector words are stripped — scanning the fixed connector list and
removing the first connector encountered — *until exactly two tokens
remain*; if two tokens are never reached this way the step fails.  (This
repeats removal, so a connector occurring twice can be removed twice;
the fuel `tokens.length` suffices since every round removes a token.) -/
def stripSpecAux : Nat → List String → Option (List String)
  | 0, _ => none
  | fuel + 1, tokens =>
    if tokens.length = 2 then some tokens
    else
      match CONNECTORS.find? (fun c => tokens.contains c) with
      | some c => stripSpecAux fuel (tokens.erase c)
      | none => none

def stripSpec (tokens : List String) : Option (List String) :=
  stripSpecAux tokens.length tokens

/-- The single-pass closed form of the source's stripping loop: remove
the first occurrence of `"to"` if present, stop if exactly two tokens
remain, then likewise for `"in"`, and fail otherwise — each connector is
removed at most once. -/
def stripOncePass (tokens : List String) : Option (List String) :=
  let t1 := if tokens.contains "to" then tokens.erase "to" else tokens
  if t1.length = 2 then some t1
  else
    let t2 := if t1.contains "in" then t1.erase "in" else t1
    if t2.length = 2 then some t2 else none

/-- `random.choice` returns a member of its (nonempty) argument; so does
the concrete selector `pickFirst`. -/
theorem pickFirst_mem : ∀ (l : List String), l ≠ [] → pickFirst l ∈ l := by
  intro l h
  cases l with
  | nil => exact absurd rfl h
  | cons a t => exact List.mem_cons_self a t


/-! ### Helper lemmas -/

theorem natCharsAux_digit :
    ∀ (fuel n : Nat), ∀ c ∈ natCharsAux fuel n, ∃ d, d < 10 ∧ c = digitChar d := by
  intro fuel
  induction fuel with
  | zero => intro n c hc; simp [natCharsAux] at hc
  | succ f ih =>
    intro n c hc
    by_cases h : n < 10
    · simp [natCharsAux, h] at hc
      exact ⟨n, h, hc⟩
    · simp only [natCharsAux, h, if_false, List.mem_append, List.mem_singleton] at hc
      rcases hc with hc | hc
      · exact ih (n / 10) c hc
      · exact ⟨n % 10, Nat.mod_lt _ (by norm_num), hc⟩

theorem digitChar_ne_dot : ∀ d, d < 10 → digitChar d ≠ '.' := by decide

theorem digitChar_zero : ∀ d, d < 10 → digitChar d = '0' → d = 0 := by decide

theorem natCharsAux_all_zero :
    ∀ (fuel n : Nat), n < fuel → (∀ c ∈ natCharsAux fuel n, c = '0') → n = 0 := by
  intro fuel
  induction fuel with
  | zero => intro n h; omega
  | succ f ih =>
    intro n hn hall
    by_cases h : n < 10
    · exact digitChar_zero n h (hall (digitChar n) (by simp [natCharsAux, h]))
    · exfalso
      have h1 : ∀ c ∈ natCharsAux f (n / 10), c = '0' := fun c hc =>
        hall c (by simp [natCharsAux, h, hc])
      have h3 : n / 10 = 0 := ih (n / 10) (by omega) h1
      omega

theorem dropWhile_cons_not {p : Char → Bool} :
    ∀ (l : List Char) (c : Char) (cs' : List Char), l.dropWhile p = c :: cs' → p c = false := by
  intro l
  induction l with
  | nil => intro c cs' h; simp [List.dropWhile] at h
  | cons a t ih =>
    intro c cs' h
    rw [List.dropWhile_cons] at h
    by_cases hp : p a
    · rw [if_pos hp] at h; exact ih c cs' h
    · rw [if_neg hp] at h
      cases h
      simpa using hp

theorem pyRound_intCast (k : Int) : pyRound ((k : ℚ)) = k := by
  have h1 : ratFloor ((k : ℚ)) = k := by
    simp [ratFloor, Rat.num_intCast, Rat.den_intCast]
  simp only [pyRound, h1]
  norm_num

theorem charListLe_total : ∀ (a b : List Char), charListLe a b = true ∨ charListLe b a = true := by
  intro a
  induction a with
  | nil => intro b; left; rfl
  | cons x xs ih =>
    intro b
    cases b with
    | nil => right; rfl
    | cons y ys =>
      simp only [charListLe]
      by_cases h1 : x.toNat < y.toNat
      · left; simp [h1]
      · by_cases h2 : y.toNat < x.toNat
        · right; simp [h1, h2]
        · rcases ih ys with h | h
          · left; simp [h1, h2, h]
          · right; simp [h1, h2, h]

theorem charListLe_trans :
    ∀ (a b c : List Char),
      charListLe a b = true → charListLe b c = true → charListLe a c = true := by
  intro a
  induction a with
  | nil => intro b c _ _; rfl
  | cons x xs ih =>
    intro b c hab hbc
    cases b with
    | nil => simp [charListLe] at hab
    | cons y ys =>
      cases c with
      | nil => simp [charListLe] at hbc
      | cons z zs =>
        simp only [charListLe] at hab hbc ⊢
        by_cases h1 : x.toNat < y.toNat
        · by_cases h2 : y.toNat < z.toNat
          · have h3 : x.toNat < z.toNat := by omega
            simp [h3]
          · rw [if_neg h2] at hbc
            by_cases h4 : z.toNat < y.toNat
            · rw [if_pos h4] at hbc; exact absurd hbc (by simp)
            · have h3 : x.toNat < z.toNat := by omega
              simp [h3]
        · by_cases h4 : y.toNat < x.toNat
          · rw [if_neg h1, if_pos h4] at hab; exact absurd hab (by simp)
          · rw [if_neg h1, if_neg h4] at hab
            by_cases h2 : y.toNat < z.toNat
            · have h3 : x.toNat < z.toNat := by omega
              simp [h3]
            · by_cases h5 : z.toNat < y.toNat
              · rw [if_neg h2, if_pos h5] at hbc; exact absurd hbc (by simp)
              · rw [if_neg h2, if_neg h5] at hbc
                have h3 : ¬ x.toNat < z.toNat := by omega
                have h6 : ¬ z.toNat < x.toNat := by omega
                simp only [h3, h6, if_neg, if_false]
                exact ih ys zs hab hbc

theorem entryLe_total : ∀ (a b : ℚ × String), entryLe a b = true ∨ entryLe b a = true := by
  intro a b
  simp only [entryLe]
  by_cases h1 : a.1 < b.1
  · left; simp [h1]
  · by_cases h2 : b.1 < a.1
    · right; simp [h1, h2]
    · rcases charListLe_total a.2.data b.2.data with h | h
      · left; simp [h1, h2, h]
      · right; simp [h1, h2, h]

theorem entryLe_trans :
    ∀ (a b c : ℚ × String),
      entryLe a b = true → entryLe b c = true → entryLe a c = true := by
  intro a b c hab hbc
  simp only [entryLe] at hab hbc ⊢
  by_cases h1 : a.1 < b.1
  · by_cases h2 : b.1 < c.1
    · have h3 : a.1 < c.1 := lt_trans h1 h2
      simp [h3]
    · rw [if_neg h2] at hbc
      by_cases h4 : c.1 < b.1
      · rw [if_pos h4] at hbc; exact absurd hbc (by simp)
      · have h3 : a.1 < c.1 := lt_of_lt_of_le h1 (not_lt.mp h4)
        simp [h3]
  · by_cases h4 : b.1 < a.1
    · rw [if_neg h1, if_pos h4] at hab; exact absurd hab (by simp)
    · rw [if_neg h1, if_neg h4] at hab
      by_cases h2 : b.1 < c.1
      · have h3 : a.1 < c.1 := lt_of_le_of_lt (not_lt.mp h4) h2
        simp [h3]
      · by_cases h5 : c.1 < b.1
        · rw [if_neg h2, if_pos h5] at hbc; exact absurd hbc (by simp)
        · rw [if_neg h2, if_neg h5] at hbc
          have h3 : ¬ a.1 < c.1 := by
            have := not_lt.mp h1; have := not_lt.mp h4
            have := not_lt.mp h2; have := not_lt.mp h5
            push_neg; linarith
          have h6 : ¬ c.1 < a.1 := by
            have := not_lt.mp h1; have := not_lt.mp h4
            have := not_lt.mp h2; have := not_lt.mp h5
            push_neg; linarith
          simp only [h3, h6, if_neg, if_false]
          exact charListLe_trans _ _ _ hab hbc

theorem entryLe_fst_le : ∀ (a b : ℚ × String), entryLe a b = true → a.1 ≤ b.1 := by
  intro a b h
  simp only [entryLe] at h
  by_cases h1 : a.1 < b.1
  · exact le_of_lt h1
  · by_cases h2 : b.1 < a.1
    · rw [if_neg h1, if_pos h2] at h; exact absurd h (by simp)
    · exact not_lt.mp h2

theorem insertSorted_perm {α : Type} (le : α → α → Bool) (x : α) :
    ∀ (l : List α), (insertSorted le x l).Perm (x :: l) := by
  intro l
  induction l with
  | nil => exact List.Perm.refl _
  | cons y ys ih =>
    simp only [insertSorted]
    by_cases h : le x y
    · rw [if_pos h]
    · rw [if_neg h]
      exact (ih.cons y).trans (List.Perm.swap x y ys)

theorem sortByLe_perm {α : Type} (le : α → α → Bool) :
    ∀ (l : List α), (sortByLe le l).Perm l := by
  intro l
  induction l with
  | nil => exact List.Perm.refl _
  | cons a t ih =>
    exact (insertSorted_perm le a (sortByLe le t)).trans (ih.cons a)

theorem pairwise_insertSorted {α : Type} (le : α → α → Bool)
    (htot : ∀ a b, le a b = true ∨ le b a = true)
    (htrans : ∀ a b c, le a b = true → le b c = true → le a c = true) (x : α) :
    ∀ (l : List α), l.Pairwise (fun a b => le a b = true) →
      (insertSorted le x l).Pairwise (fun a b => le a b = true) := by
  intro l
  induction l with
  | nil => intro _; simp [insertSorted]
  | cons y ys ih =>
    intro hp
    rcases List.pairwise_cons.mp hp with ⟨hy, hys⟩
    simp only [insertSorted]
    by_cases h : le x y
    · rw [if_pos h]
      refine List.pairwise_cons.mpr ⟨?_, hp⟩
      intro b hb
      rcases List.mem_cons.mp hb with rfl | hb
      · exact h
      · exact htrans x y b h (hy b hb)
    · rw [if_neg h]
      refine List.pairwise_cons.mpr ⟨?_, ih hys⟩
      intro b hb
      have hb' : b = x ∨ b ∈ ys := by
        have := (insertSorted_perm le x ys).mem_iff.mp hb
        simpa using this
      rcases hb' with rfl | hb'
      · rcases htot b y with h' | h'
        · exact absurd h' h
        · exact h'
      · exact hy b hb'

theorem pairwise_sortByLe {α : Type} (le : α → α → Bool)
    (htot : ∀ a b, le a b = true ∨ le b a = true)
    (htrans : ∀ a b c, le a b = true → le b c = true → le a c = true) :
    ∀ (l : List α), (sortByLe le l).Pairwise (fun a b => le a b = true) := by
  intro l
  induction l with
  | nil => simp [sortByLe]
  | cons a t ih => exact pairwise_insertSorted le htot htrans a (sortByLe le t) ih

theorem pairwise_take_drop {α : Type} {R : α → α → Prop} (n : Nat) (l : List α)
    (h : l.Pairwise R) : ∀ x ∈ l.take n, ∀ y ∈ l.drop n, R x y := by
  intro x hx y hy
  have hl := List.take_append_drop n l
  rw [← hl] at h
  exact (List.pairwise_append.mp h).2.2 x hx y hy

theorem crossRow_eq (bf : String)
    (h1 : (lookupTbl SUPPORTED_UNITS bf).isSome)
    (h2 : (lookupTbl UNITS_OUTPUT bf).isSome) :
    ∀ (lt : List String),
      (∀ b ∈ lt, (lookupTbl SUPPORTED_UNITS b).isSome ∧ (lookupTbl UNITS_OUTPUT b).isSome) →
      crossRow bf lt = Except.ok
        ((lt.filter fun bt => decide (dimOfName bf = dimOfName bt)).map
          fun bt => (mkUnitInfo bf, mkUnitInfo bt)) := by
  intro lt
  induction lt with
  | nil => intro _; rfl
  | cons bt rest ih =>
    intro hall
    rcases Option.isSome_iff_exists.mp h1 with ⟨sF, hsF⟩
    rcases Option.isSome_iff_exists.mp h2 with ⟨oF, hoF⟩
    rcases Option.isSome_iff_exists.mp (hall bt (List.mem_cons_self _ _)).1 with ⟨sT, hsT⟩
    rcases Option.isSome_iff_exists.mp (hall bt (List.mem_cons_self _ _)).2 with ⟨oT, hoT⟩
    have hrest := ih (fun b hb => hall b (List.mem_cons_of_mem _ hb))
    have hdimF : dimOfName bf = sF.2.dim := by simp [dimOfName, hsF]
    have hdimT : dimOfName bt = sT.2.dim := by simp [dimOfName, hsT]
    have hmkF : mkUnitInfo bf = ⟨sF.1, sF.2, oF.1, oF.2⟩ := by
      simp [mkUnitInfo, hsF, hoF]
    have hmkT : mkUnitInfo bt = ⟨sT.1, sT.2, oT.1, oT.2⟩ := by
      simp [mkUnitInfo, hsT, hoT]
    by_cases hd : sF.2.dim = sT.2.dim
    · simp only [crossRow, pyGet, hsF, hsT, hoF, hoT, hd, if_true, hrest,
        List.filter_cons, hdimF, hdimT, decide_eq_true_eq, List.map_cons, hmkF, hmkT]
    · simp only [crossRow, pyGet, hsF, hsT, hd, if_false, hrest,
        List.filter_cons, hdimF, hdimT, decide_eq_true_eq, List.map_cons]
theorem crossUseful_eq :
    ∀ (lf lt : List String),
      (∀ b ∈ lf, (lookupTbl SUPPORTED_UNITS b).isSome ∧ (lookupTbl UNITS_OUTPUT b).isSome) →
      (∀ b ∈ lt, (lookupTbl SUPPORTED_UNITS b).isSome ∧ (lookupTbl UNITS_OUTPUT b).isSome) →
      crossUseful lf lt = Except.ok
        ((survivingPairs lf lt).map fun p => (mkUnitInfo p.1, mkUnitInfo p.2)) := by
  intro lf
  induction lf with
  | nil => intro lt _ _; rfl
  | cons bf rest ih =>
    intro lt hf ht
    have hbf := hf bf (List.mem_cons_self _ _)
    have hrow := crossRow_eq bf hbf.1 hbf.2 lt ht
    have hrest := ih lt (fun b hb => hf b (List.mem_cons_of_mem _ hb)) ht
    simp only [crossUseful, hrow, hrest, survivingPairs, List.flatMap_cons,
      List.map_append, List.map_map]
    rfl

/-! ### Claim theorems -/

set_option maxRecDepth 1000000

unseal Rat.add Rat.mul Rat.inv Rat.sub Rat.ofScientific

/-- C9: the set of keys of the unit catalog (`SUPPORTED_UNITS`) is
exactly the set of keys of the output-template table (`UNITS_OUTPUT`):
every catalog unit has a template entry and every template entry names a
catalog unit. -/
theorem c9_catalog_output_keys_match :
    (∀ k ∈ SUPPORTED_UNITS.map Prod.fst, k ∈ UNITS_OUTPUT.map Prod.fst) ∧
    (∀ k ∈ UNITS_OUTPUT.map Prod.fst, k ∈ SUPPORTED_UNITS.map Prod.fst) := by
  constructor <;> decide

/-- C9 witness: both directions applied at concrete keys. -/
theorem c9_catalog_output_keys_match_witness :
    "hectare" ∈ UNITS_OUTPUT.map Prod.fst ∧
    "short_ton" ∈ SUPPORTED_UNITS.map Prod.fst :=
  ⟨c9_catalog_output_keys_match.1 "hectare" (by decide),
   c9_catalog_output_keys_match.2 "short_ton" (by decide)⟩

/-- C7: `parse_number`, applied to any match of the numeric-literal
grammar, returns integer part (0 when absent) plus fractional digits
divided by `10 ^ count`, the sum multiplied by `10 ^ exponent` when an
exponent is present (and by `10 ^ 0 = 1` otherwise). -/
theorem c7_parse_number_value :
    ∀ (m : NumMatch),
      (parse_number m).q =
        ((digitsToNat m.intPart : ℚ) +
            (digitsToNat (m.fracPart.getD []) : ℚ) / 10 ^ (m.fracPart.getD []).length) *
          10 ^ (match m.expPart with
                | some se => (if se.1 then -1 else 1) * (digitsToNat se.2 : Int)
                | none => (0 : Int)) := by
  intro m
  rcases m with ⟨ip, fp, ep⟩
  cases ep with
  | none =>
    cases fp with
    | none =>
      by_cases hip : ip = [] <;>
        simp [parse_number, hip, digitsToNat]
    | some ds =>
      by_cases hds : ds = [] <;> by_cases hip : ip = [] <;>
        simp [parse_number, hip, hds, digitsToNat]
  | some se =>
    cases fp with
    | none =>
      by_cases hip : ip = [] <;>
        simp [parse_number, hip, digitsToNat]
    | some ds =>
      by_cases hds : ds = [] <;> by_cases hip : ip = [] <;>
        simp [parse_number, hip, hds, digitsToNat]

/-- C4: with exactly two tokens, a token matched before the number makes
`tokens[1]` the source and `tokens[0]` the destination, otherwise the
source is `tokens[0]` and the destination `tokens[1]`; and on the
suggestion path the flag is forced to `false`, so the suggested unit is
always the destination. -/
theorem c4_from_to_assignment :
    (∀ (t0 t1 : String) (fb : Bool),
        resolveTokens [t0, t1] fb =
          Except.ok (some (if fb then (t1, t0) else (t0, t1)))) ∧
    (∀ (t s : String) (fb : Bool), suggest t = Except.ok (some s) →
        resolveTokens [t] fb = Except.ok (some (t, s))) := by
  constructor
  · intro t0 t1 fb
    cases fb <;> rfl
  · intro t s fb h
    simp only [resolveTokens, h]
    rfl

/-- C4 witness: both parts at concrete tokens (`suggest "hectare"`
resolves to `square_mile`). -/
theorem c4_from_to_assignment_witness :
    resolveTokens ["foot", "meter"] true = Except.ok (some ("meter", "foot")) ∧
    resolveTokens ["hectare"] true = Except.ok (some ("hectare", "square_mile")) :=
  ⟨c4_from_to_assignment.1 "foot" "meter" true,
   c4_from_to_assignment.2 "hectare" "square_mile" true (by rfl)⟩

/-- C5 (amended): when more than two tokens are collected, the connector
list is scanned once, removing at most one occurrence of each connector
and stopping as soon as exactly two tokens remain; if two tokens are not
reached by this single pass the conversion returns "no result" — in
particular a duplicate connector occurrence is not stripped twice. -/
theorem c5_connector_strip_single_pass :
    ∀ (tokens : List String), 2 < tokens.length →
      stripLoop CONNECTORS tokens = stripOncePass tokens := by
  intro tokens h
  have hne : ¬ tokens.length = 2 := by omega
  show stripLoop ["to", "in"] tokens = _
  by_cases h1 : "to" ∈ tokens
  · by_cases h2 : (tokens.erase "to").length = 2
    · simp [stripLoop, stripOncePass, h1, h2]
    · by_cases h3 : "in" ∈ tokens.erase "to"
      · by_cases h4 : ((tokens.erase "to").erase "in").length = 2 <;>
          simp [stripLoop, stripOncePass, h1, h2, h3, h4]
      · by_cases h5 : tokens.length = 3 <;>
          simp [stripLoop, stripOncePass, h1, h2, h3, h5]
  · by_cases h3 : "in" ∈ tokens
    · by_cases h4 : (tokens.erase "in").length = 2 <;>
        simp [stripLoop, stripOncePass, h1, hne, h3, h4]
    · simp [stripLoop, stripOncePass, h1, hne, h3]

/-- C5 witness: a four-token list where the single pass succeeds. -/
theorem c5_connector_strip_single_pass_witness :
    2 < (["meter", "to", "in", "foot"] : List String).length ∧
    stripLoop CONNECTORS ["meter", "to", "in", "foot"] =
      stripOncePass ["meter", "to", "in", "foot"] :=
  ⟨by decide, c5_connector_strip_single_pass ["meter", "to", "in", "foot"] (by decide)⟩

/-- C5 counterexample: on a token list containing the connector `"to"`
twice, the source's loop removes it only once and fails (and so
`convert` returns "no result"), whereas stripping "until exactly two
tokens remain" as the claim states (`stripSpec`, modelled from the
claim's words) reaches `["meter", "foot"]` and would proceed. -/
theorem c5_duplicate_connector_cex :
    stripLoop CONNECTORS ["meter", "to", "to", "foot"] = none ∧
    stripSpec ["meter", "to", "to", "foot"] = some ["meter", "foot"] ∧
    convert "5 to to meter foot" = ConvResult.noResult := by
  refine ⟨by decide, by decide, by decide⟩

/-- C1: the claim asserts `convert` never raises and that every token
collected by the matching loop can be looked up later.  The code
violates this: a bare connector word is collected as a token (connectors
are part of `useful_tokens`) but is not a key of `_UnitManager._units`,
so `suggest` (one-token path, input `"5 to"`) and `get_units_info`
(pairing path, input `"5 to meter"`) raise an uncaught `KeyError`. -/
theorem c1_connector_token_uncaught_keyerror :
    convert "5 to" = ConvResult.crash ∧ convert "5 to meter" = ConvResult.crash := by
  exact ⟨by decide, by decide⟩

/-- C3: with a single resolvable unit token, the destination comes from
the suggestion table (`suggest "hectare" = square_mile`); the source-side
multiplier is applied by multiplication before the engine conversion and
the destination-side multiplier by division after it (the closed formula
below); and concretely `convert "100 hectare"` renders the claimed
sentence. -/
theorem c3_single_unit_suggestion :
    suggest "hectare" = Except.ok (some "square_mile") ∧
    (∀ (n : ℚ) (uf ut : UnitInfo), uf.unit.dim = ut.unit.dim →
        computeConversion n uf ut =
          some ((engineToBase (n * uf.mult.getD 1) uf.unit - ut.unit.offset) /
              ut.unit.factor / ut.mult.getD 1)) ∧
    convert "100 hectare" = ConvResult.result "100 hectares = 0.3861 square miles" := by
  refine ⟨by rfl, ?_, by decide⟩
  intro n uf ut h
  rcases uf with ⟨mf, u1, s1, p1⟩
  rcases ut with ⟨mt, u2, s2, p2⟩
  have h' : u1.dim = u2.dim := h
  cases mf <;> cases mt <;>
    simp [computeConversion, h', engineToBase]

/-- C3 witness: the conversion formula applied at a concrete
dimensionally compatible pair. -/
theorem c3_single_unit_suggestion_witness :
    computeConversion 5 ⟨none, uMeter, "", ""⟩ ⟨none, uCentimeter, "", ""⟩ =
      some ((engineToBase (5 * 1) uMeter - uCentimeter.offset) / uCentimeter.factor / 1) :=
  c3_single_unit_suggestion.2.1 5 ⟨none, uMeter, "", ""⟩ ⟨none, uCentimeter, "", ""⟩ (by decide)

/-- C10: the numeric-literal grammar accepts no sign, so every extracted
numeric value is non-negative; a leading `-` is discarded as surrounding
text, e.g. `"-5 m in cm"` is converted as 5. -/
theorem c10_no_negative_numbers :
    (∀ (cs : List Char) (m : NumMatch) (a b : Nat),
        findNumber cs = some (m, a, b) → 0 ≤ (parse_number m).q) ∧
    convert "-5 m in cm" = ConvResult.result "5 meters = 500 centimeters" := by
  constructor
  · intro cs m a b _
    rcases m with ⟨ip, fp, ep⟩
    cases ep with
    | none =>
      cases fp with
      | none =>
        by_cases hip : ip = [] <;> simp [parse_number, hip]
      | some ds =>
        by_cases hds : ds = [] <;> by_cases hip : ip = [] <;>
          simp [parse_number, hip, hds] <;> positivity
    | some se =>
      rcases se with ⟨sg, es⟩
      cases fp with
      | none =>
        by_cases hip : ip = [] <;> cases sg <;>
          simp [parse_number, hip]
      | some ds =>
        by_cases hds : ds = [] <;> by_cases hip : ip = [] <;> cases sg <;>
          simp [parse_number, hip, hds] <;> positivity
  · decide

/-- C10 witness: the grammar match of `"-5"` starts after the sign and
parses the non-negative value 5. -/
theorem c10_no_negative_numbers_witness :
    findNumber "-5".data = some (⟨[5], none, none⟩, 1, 2) ∧
    0 ≤ (parse_number ⟨[5], none, none⟩).q :=
  ⟨by decide, c10_no_negative_numbers.1 "-5".data ⟨[5], none, none⟩ 1 2 (by decide)⟩

/-- C2: pairing forms the cross-product of the two candidate sets,
keeps the pairs of equal engine dimensionality, and succeeds (with that
pair) exactly when one pair survives; zero or several survivors fail the
conversion, hence `convert "1y in m"` (yard/meter and year/month both
survive) returns no result. -/
theorem c2_pairing_exactly_one :
    (∀ (tf tt : String) (lf lt : List String),
        lookupTbl unitsMap tf = some lf →
        lookupTbl unitsMap tt = some lt →
        (∀ b ∈ lf, (lookupTbl SUPPORTED_UNITS b).isSome ∧ (lookupTbl UNITS_OUTPUT b).isSome) →
        (∀ b ∈ lt, (lookupTbl SUPPORTED_UNITS b).isSome ∧ (lookupTbl UNITS_OUTPUT b).isSome) →
        get_units_info tf tt = Except.ok (onePairInfo (survivingPairs lf lt))) ∧
    convert "1y in m" = ConvResult.noResult := by
  constructor
  · intro tf tt lf lt h1 h2 h3 h4
    have hcross := crossUseful_eq lf lt h3 h4
    simp only [get_units_info, pyGet, h1, h2, hcross]
    rcases hS : survivingPairs lf lt with _ | ⟨p, _ | ⟨q, rest⟩⟩ <;>
      simp [onePairInfo]
  · decide

/-- C2 witness: the pairing applied at the ambiguous tokens of
`"1y in m"`: `y` resolves to yard/year and `m` to meter/month, two pairs
survive, so the pairing yields `none`. -/
theorem c2_pairing_exactly_one_witness :
    get_units_info "y" "m" =
      Except.ok (onePairInfo (survivingPairs ["yard", "year"] ["meter", "month"])) :=
  c2_pairing_exactly_one.1 "y" "m" ["yard", "year"] ["meter", "month"]
    (by rfl) (by rfl) (by decide) (by decide)

/-- C6: the converted magnitude is rounded to 4 decimal places; a whole
rounded value is rendered without a decimal point (singular template
exactly when it equals 1), and a non-whole one is rendered with 4
decimals and trailing zeros stripped, so no '0' precedes the unit
label. -/
theorem c6_rounded_formatting :
    ∀ (mag : ℚ) (s p : String),
      ((pyRound4 mag) * 10000).den = 1 ∧
      ((pyRound4 mag).den = 1 →
        '.' ∉ (nicerRes (pyRound4 mag)).data ∧
        chosenTo (pyRound4 mag) s p = (if pyRound4 mag = 1 then s else p)) ∧
      ((pyRound4 mag).den ≠ 1 →
        (nicerRes (pyRound4 mag)).data ≠ [] ∧
        (nicerRes (pyRound4 mag)).data.getLast? ≠ some '0') := by
  intro mag s p
  have h10 : pyRound4 mag * 10000 = ((pyRound (mag * 10000) : ℚ)) := by
    rw [pyRound4]; field_simp
  refine ⟨by rw [h10]; exact Rat.den_intCast _, ?_, ?_⟩
  · intro hden
    constructor
    · simp only [nicerRes, hden, if_true]
      intro hmem
      simp only [intStr, intChars, List.mem_append] at hmem
      rcases hmem with hmem | hmem
      · split at hmem <;> simp_all
      · obtain ⟨d, hd, hc⟩ := natCharsAux_digit _ _ _ hmem
        exact digitChar_ne_dot d hd hc.symm
    · by_cases h1 : pyRound4 mag = 1 <;> simp [chosenTo, hden, h1]
  · intro hden
    have hknz : ¬ ((10000 : ℤ) ∣ pyRound (mag * 10000)) := by
      rintro ⟨m, hm⟩
      apply hden
      have : pyRound4 mag = (m : ℚ) := by
        rw [pyRound4, hm]; push_cast; field_simp
      rw [this]; exact Rat.den_intCast m
    have hmod : (pyRound (mag * 10000)).natAbs % 10000 ≠ 0 := by
      intro h0
      apply hknz
      have : (10000 : ℤ).natAbs ∣ (pyRound (mag * 10000)).natAbs :=
        Nat.dvd_of_mod_eq_zero h0
      exact Int.natAbs_dvd_natAbs.mp this
    -- the rounded value re-rounds to itself inside fixed4
    have hpk : pyRound ((pyRound4 mag) * 10000) = pyRound (mag * 10000) := by
      rw [h10]; exact pyRound_intCast _
    simp only [nicerRes, hden, if_false, stripTrailingZeros, fixed4, hpk]
    set k := pyRound (mag * 10000) with hkdef
    set Z := padZeros 4 (natChars (k.natAbs % 10000)) with hZ
    set pre := (if k < 0 then ['-'] else []) ++ natChars (k.natAbs / 10000) with hpre
    have hrev : ((if k < 0 then ['-'] else []) ++ natChars (k.natAbs / 10000) ++ '.' :: Z).reverse
        = Z.reverse ++ '.' :: pre.reverse := by
      simp [hpre, List.reverse_append, List.append_assoc]
    have hZnz : ∃ c ∈ Z.reverse, ¬ (c = '0') := by
      by_contra hall
      push_neg at hall
      have : k.natAbs % 10000 = 0 := by
        apply natCharsAux_all_zero (k.natAbs % 10000 + 1) _ (by omega)
        intro c hc
        have hmem : c ∈ Z := by
          rw [hZ, padZeros]
          exact List.mem_append_right _ hc
        exact hall c (List.mem_reverse.mpr hmem)
      exact hmod this
    obtain ⟨c0, hc0mem, hc0⟩ := hZnz
    have hdw : Z.reverse.dropWhile (fun c => c = '0') ≠ [] := by
      intro hnil
      have := List.dropWhile_eq_nil_iff.mp hnil c0 hc0mem
      simp at this
      exact hc0 this
    rw [hrev, List.dropWhile_append, if_neg (by simp [List.isEmpty_iff, hdw])]
    constructor
    · simp
    · rw [List.getLast?_reverse]
      rcases hh : Z.reverse.dropWhile (fun c => c = '0') with _ | ⟨c1, rest⟩
      · exact absurd hh hdw
      · have hc1 : (fun c => decide (c = '0')) c1 = false := dropWhile_cons_not _ _ _ hh
        simp only [List.cons_append, List.head?_cons]
        simp only [decide_eq_false_iff_not] at hc1
        simp [hc1]

/-- C6 witness: both branches at concrete magnitudes (2 and 1/3). -/
theorem c6_rounded_formatting_witness :
    (pyRound4 2).den = 1 ∧ '.' ∉ (nicerRes (pyRound4 2)).data ∧
    (pyRound4 (1/3)).den ≠ 1 ∧ (nicerRes (pyRound4 (1/3))).data.getLast? ≠ some '0' :=
  ⟨by decide, ((c6_rounded_formatting 2 "" "").2.1 (by decide)).1,
   by decide, ((c6_rounded_formatting (1/3) "" "").2.2 (by decide)).2⟩

/-- C8: the facts lookup returns nothing exactly when no fact passes its
ratio bands; otherwise every candidate handed to the random choice is a
rendered sentence of a matching fact, there are at most
`NUMBERS_UNCERTAINTY` of them, and they are the ones of smallest
distance (the exact rational key `distKey` is order-equivalent to the
source's `|log10 n - log10 v|`); a fact with `0.9·v ≤ n ≤ 1.1·v` yields
the "close to" sentence, and with the single-entry table the
conversation of `"100"` renders the claimed sentence for every
admissible random choice. -/
theorem c8_numbers_info_behavior :
    (∀ (table : List FactEntry) (n : PyNum),
        numbersChoices table n = [] ↔ ∀ f ∈ table, bandMsg n f = none) ∧
    (∀ (table : List FactEntry) (n : PyNum) (t : String),
        t ∈ numbersChoices table n → ∃ f ∈ table, bandMsg n f = some t) ∧
    (∀ (table : List FactEntry) (n : PyNum),
        (numbersChoices table n).length ≤ NUMBERS_UNCERTAINTY) ∧
    (∀ (table : List FactEntry) (n : PyNum) (x y : ℚ × String),
        x ∈ (sortByLe entryLe (numbersResults table n)).take NUMBERS_UNCERTAINTY →
        y ∈ (sortByLe entryLe (numbersResults table n)).drop NUMBERS_UNCERTAINTY →
        x.1 ≤ y.1) ∧
    (∀ (n : PyNum) (f : FactEntry), 0 < f.value →
        f.value * (9/10) ≤ n.q → n.q ≤ f.value * (11/10) →
        bandMsg n f = some (pyNumStr n ++ " " ++ f.unit ++ " is close to the " ++
          f.dimension ++ " of " ++ f.target)) ∧
    (∀ (pick : List String → String), (∀ l, l ≠ [] → pick l ∈ l) →
        convertWith [⟨100, "meters", "size", "a monster"⟩] pick "100" =
          ConvResult.result "100 meters is close to the size of a monster") := by
  refine ⟨?_, ?_, ?_, ?_, ?_, ?_⟩
  · intro table n
    have h1 : numbersChoices table n = [] ↔
        (sortByLe entryLe (numbersResults table n)).take NUMBERS_UNCERTAINTY = [] := by
      simp [numbersChoices]
    have h2 : (sortByLe entryLe (numbersResults table n)).take NUMBERS_UNCERTAINTY = [] ↔
        sortByLe entryLe (numbersResults table n) = [] := by
      constructor
      · intro h
        rcases List.take_eq_nil_iff.mp h with h | h
        · simp [NUMBERS_UNCERTAINTY] at h
        · exact h
      · intro h; rw [h]; rfl
    have h3 : sortByLe entryLe (numbersResults table n) = [] ↔
        numbersResults table n = [] := by
      constructor <;> intro h
      · have hlen := (sortByLe_perm entryLe (numbersResults table n)).length_eq
        rw [h] at hlen
        exact List.length_eq_zero.mp hlen.symm
      · rw [h]; rfl
    have h4 : numbersResults table n = [] ↔ ∀ f ∈ table, bandMsg n f = none := by
      rw [numbersResults, List.filterMap_eq_nil_iff]
      simp [Option.map_eq_none']
    exact h1.trans (h2.trans (h3.trans h4))
  · intro table n t ht
    simp only [numbersChoices] at ht
    rcases List.mem_map.mp ht with ⟨e, he, rfl⟩
    have he1 : e ∈ sortByLe entryLe (numbersResults table n) := List.take_subset _ _ he
    have he2 : e ∈ numbersResults table n := (sortByLe_perm entryLe _).mem_iff.mp he1
    rcases List.mem_filterMap.mp he2 with ⟨f, hf, hmap⟩
    rcases Option.map_eq_some'.mp hmap with ⟨text, hband, hpair⟩
    refine ⟨f, hf, ?_⟩
    rw [hband, ← hpair]
  · intro table n
    simp only [numbersChoices, List.length_map]
    rw [List.length_take]
    exact min_le_left _ _
  · intro table n x y hx hy
    exact entryLe_fst_le x y
      (pairwise_take_drop NUMBERS_UNCERTAINTY _
        (pairwise_sortByLe entryLe entryLe_total entryLe_trans _) x hx y hy)
  · intro n f hv h9 h11
    have hb1 : ¬ (f.value * (4/10) ≤ n.q ∧ n.q ≤ f.value * (6/10)) := by
      rintro ⟨hA, hB⟩
      nlinarith
    simp only [bandMsg]
    rw [if_neg hb1, if_pos ⟨h9, h11⟩]
  · intro pick hp
    have base : convertWith [⟨100, "meters", "size", "a monster"⟩] pick "100" =
        ConvResult.result (pick ["100 meters is close to the size of a monster"]) := rfl
    rw [base]
    have hm := hp ["100 meters is close to the size of a monster"] (by simp)
    rw [List.mem_singleton.mp hm]

/-- C8 witness: the candidate-membership part at the single-entry table
and the concrete conversion with the `pickFirst` selector. -/
theorem c8_numbers_info_behavior_witness :
    (∃ f ∈ [(⟨100, "meters", "size", "a monster"⟩ : FactEntry)],
        bandMsg ⟨100, false⟩ f = some "100 meters is close to the size of a monster") ∧
    convertWith [⟨100, "meters", "size", "a monster"⟩] pickFirst "100" =
      ConvResult.result "100 meters is close to the size of a monster" :=
  ⟨c8_numbers_info_behavior.2.1 [⟨100, "meters", "size", "a monster"⟩] ⟨100, false⟩
      "100 meters is close to the size of a monster" (by decide),
   c8_numbers_info_behavior.2.2.2.2.2 pickFirst pickFirst_mem⟩

end Unitconv
